import Mathlib

/-
Shallow embedding of the CheetahExpress dispatch pipeline.

Sources embedded here (file names refer to the repository under src/):
  agents/voice_dispatch_agent.py  -- keyword intent parsing, repeat loop
  agents/voice_dispatch.py        -- ranked dispatch loop
  agents/compliance.py            -- four-rule eligibility check
  agents/compliance_agent.py      -- workload-tracking compliance variant (license rule)
  agents/routing.py               -- batched ETA / SLA feasibility
  agents/ranking.py               -- scoring and stable descending sort
  agents/orchestrator.py          -- end-to-end pipeline

Modelling conventions:
  Python str        -> Lean String (transcripts and keywords are ASCII, so
                       Char.toLower faithfully models str.lower on them)
  Python float      -> Rat (exact arithmetic; the repository only compares and
                       adds these quantities)
  datetime / date   -> Rat / Int timestamps (dates in whole days, datetimes in
                       seconds); subtraction of two dates in days equals the
                       timedelta .days field used by the code
  external calls    -> explicit parameters (route matrix rows, call outcomes,
                       per-round transcripts) so the control flow around them
                       is embedded exactly
-/

-- ── String helpers (Python str.lower, str.strip, substring test) ─────────────

/-- Model of Python membership test `pat in hay` on strings: true when pat
occurs as a contiguous substring of hay. -/
def listContains (pat : List Char) : List Char → Bool
  | [] => pat.isEmpty
  | c :: t => pat.isPrefixOf (c :: t) || listContains pat t

/-- Model of Python str.lower restricted to ASCII text (all keywords and
transcripts compared by the code are ASCII). -/
def lowerStr (s : String) : String := ⟨s.data.map Char.toLower⟩

/-- Model of Python str.strip: drop leading and trailing whitespace. -/
def stripList (l : List Char) : List Char :=
  ((l.dropWhile Char.isWhitespace).reverse.dropWhile Char.isWhitespace).reverse

/-- String version of stripList. -/
def stripStr (s : String) : String := ⟨stripList s.data⟩

-- ── Call outcome model (models.py CallOutcome) ───────────────────────────────

/-- Embeds the CallOutcome enum of src/models.py. -/
inductive CallOutcome where
  | accepted
  | declined
  | no_answer
  | failed
deriving DecidableEq

/-- ACCEPT_KEYWORDS of src/agents/voice_dispatch_agent.py. The source stores a
Python set; every iteration of the membership loop returns the same pair, so
the set is modelled as a list. -/
def ACCEPT_KEYWORDS : List String :=
  ["yes", "yeah", "yep", "sure", "accept", "okay", "ok",
   "will do", "absolutely", "affirmative", "i will", "i can"]

/-- DECLINE_KEYWORDS of src/agents/voice_dispatch_agent.py. -/
def DECLINE_KEYWORDS : List String :=
  ["no", "nope", "nah", "decline", "can\x27t", "cannot",
   "won\x27t", "busy", "unavailable", "negative", "not available"]

/-- REPEAT_KEYWORDS of src/agents/voice_dispatch_agent.py. -/
def REPEAT_KEYWORDS : List String :=
  ["repeat", "again", "say again", "come again", "pardon",
   "didn\x27t catch", "what was that", "one more time"]

/-- MAX_REPEATS of src/agents/voice_dispatch_agent.py. -/
def MAX_REPEATS : Nat := 2

/-- Embeds VoiceDispatchAgent._wants_repeat: any repeat keyword occurs in the
lowercased transcript. -/
def wants_repeat (transcript : String) : Bool :=
  REPEAT_KEYWORDS.any (fun kw => listContains kw.data (lowerStr transcript).data)

/-- Embeds VoiceDispatchAgent._parse_outcome of src/agents/voice_dispatch_agent.py:
empty-after-strip transcript declines with a fixed reason; else the accept
keyword loop runs before the decline keyword loop; else a fixed fallback. -/
def parse_outcome (transcript : String) : CallOutcome × Option String :=
  if stripStr transcript = "" then
    (CallOutcome.declined, some "No response received")
  else
    let lower := lowerStr transcript
    if ACCEPT_KEYWORDS.any (fun kw => listContains kw.data lower.data) then
      (CallOutcome.accepted, none)
    else if DECLINE_KEYWORDS.any (fun kw => listContains kw.data lower.data) then
      (CallOutcome.declined, some (stripStr transcript))
    else
      (CallOutcome.declined, some "No clear response received")

-- ── Repeat loop of VoiceDispatchAgent._local_voice_call ──────────────────────

/-- Embeds the record-transcribe-repeat while loop of
VoiceDispatchAgent._local_voice_call. The transcript produced by round k of
recording plus transcription is supplied as ts k. Returns the number of
record-transcribe rounds performed and the transcript on which the loop exits
to classification. The source re-enters the loop only when the transcript asks
for a repeat AND repeat_count < MAX_REPEATS. -/
def repeat_loop (ts : Nat → String) (round_idx : Nat) (repeat_count : Nat) :
    Nat × String :=
  if h : wants_repeat (ts round_idx) = true ∧ repeat_count < MAX_REPEATS then
    let rest := repeat_loop ts (round_idx + 1) (repeat_count + 1)
    (rest.1 + 1, rest.2)
  else
    (1, ts round_idx)
termination_by MAX_REPEATS - repeat_count
decreasing_by omega

-- ── Data model (src/models/driver.py, src/models/order.py) ───────────────────

/-- Embeds the Driver model of src/models/driver.py. Dates are whole days
(license_expiry), datetimes are seconds (shift_start, shift_end); floats are
exact rationals. Fields never read by the embedded functions (current_gps,
status) are omitted. -/
structure Driver where
  driver_id : String
  name : String
  phone : String
  vehicle_type : String
  license_expiry : Int
  km_budget_remaining_today : Rat
  shift_start : Rat
  shift_end : Rat
deriving DecidableEq

/-- Embeds the Order model of src/models/order.py restricted to the fields the
pipeline reads: vehicle_type holds the enum value string; pickup_by and
deliver_by are the time_window datetimes in seconds. -/
structure Order where
  order_id : String
  vehicle_type : String
  pickup_by : Rat
  deliver_by : Rat
deriving DecidableEq

/-- Tags naming the four failure-reason strings appended by
ComplianceAgent._check_driver in src/agents/compliance.py. The human-readable
message text (which interpolates the offending numbers) is abstracted to the
rule it reports; the code appends exactly one such message per violated rule. -/
inductive FailureReason where
  | license_expiring
  | vehicle_mismatch
  | insufficient_km_budget
  | shift_window_uncovered
deriving DecidableEq

/-- Embeds the ComplianceResult model of src/models/driver.py. -/
structure ComplianceResult where
  driver_id : String
  eligible : Bool
  failure_reasons : List FailureReason
  license_days_remaining : Int
  vehicle_match : Bool
  km_budget_ok : Bool
  shift_window_ok : Bool
deriving DecidableEq

/-- Embeds the RoutingResult model of src/models/driver.py. -/
structure RoutingResult where
  driver_id : String
  eta_to_pickup_minutes : Rat
  eta_total_trip_minutes : Rat
  total_distance_km : Rat
  fits_sla : Bool
deriving DecidableEq

/-- Embeds the RankedDriver model of src/models/driver.py. -/
structure RankedDriver where
  driver_id : String
  name : String
  phone : String
  score : Rat
  rank : Nat
  eta_to_pickup_minutes : Rat
  eta_total_trip_minutes : Rat
  compliance : ComplianceResult
  routing : RoutingResult
deriving DecidableEq

/-- Embeds the DispatchOutcome model of src/models/driver.py; outcome is the
string "accepted" | "declined" | "no_answer" | "error" as in the source.
The timestamp field (a wall-clock default) is omitted. -/
structure DispatchOutcome where
  driver_id : String
  outcome : String
  sentiment_score : Option Rat
  decline_reason : Option String
  call_duration_seconds : Option Int
deriving DecidableEq

-- ── Compliance agent (src/agents/compliance.py) ──────────────────────────────

namespace ComplianceAgent

/-- LICENSE_EXPIRY_BUFFER_DAYS of src/agents/compliance.py. -/
def LICENSE_EXPIRY_BUFFER_DAYS : Int := 14

/-- MIN_KM_BUDGET_REMAINING of src/agents/compliance.py. -/
def MIN_KM_BUDGET_REMAINING : Rat := 20

/-- Rule 2.1 of ComplianceAgent._check_driver: days_remaining >= buffer, where
days_remaining = (driver.license_expiry - today).days. -/
def license_ok (today : Int) (driver : Driver) : Bool :=
  decide (driver.license_expiry - today ≥ LICENSE_EXPIRY_BUFFER_DAYS)

/-- Rule 2.2 of ComplianceAgent._check_driver: case-insensitive vehicle class
equality. -/
def vehicle_match (driver : Driver) (order : Order) : Bool :=
  lowerStr driver.vehicle_type == lowerStr order.vehicle_type

/-- Rule 2.3 of ComplianceAgent._check_driver: remaining km budget at least
MIN_KM_BUDGET_REMAINING. -/
def km_budget_ok (driver : Driver) : Bool :=
  decide (driver.km_budget_remaining_today ≥ MIN_KM_BUDGET_REMAINING)

/-- Rule 2.4 of ComplianceAgent._check_driver: shift interval contains the
pickup-by .. deliver-by window. -/
def shift_window_ok (driver : Driver) (order : Order) : Bool :=
  decide (driver.shift_start ≤ order.pickup_by) &&
    decide (driver.shift_end ≥ order.deliver_by)

/-- Embeds ComplianceAgent._check_driver of src/agents/compliance.py: the four
rules are each evaluated, a failure reason is appended per violated rule in
source order, and eligible is len(failures) == 0. date.today() is passed in as
the explicit parameter today. -/
def check_driver (today : Int) (driver : Driver) (order : Order) : ComplianceResult :=
  let failures : List FailureReason :=
    (if license_ok today driver then [] else [FailureReason.license_expiring]) ++
    (if vehicle_match driver order then [] else [FailureReason.vehicle_mismatch]) ++
    (if km_budget_ok driver then [] else [FailureReason.insufficient_km_budget]) ++
    (if shift_window_ok driver order then [] else [FailureReason.shift_window_uncovered])
  { driver_id := driver.driver_id
    eligible := failures.isEmpty
    failure_reasons := failures
    license_days_remaining := driver.license_expiry - today
    vehicle_match := vehicle_match driver order
    km_budget_ok := km_budget_ok driver
    shift_window_ok := shift_window_ok driver order }

/-- Embeds ComplianceAgent.check_all: one result per driver of the pool. -/
def check_all (today : Int) (drivers : List Driver) (order : Order) :
    List ComplianceResult :=
  drivers.map (fun d => check_driver today d order)

/-- Embeds the license check of
ComplianceAgent._check_driver_compliance_in_memory in
src/agents/compliance_agent.py: days_until_expiry > min_license_buffer_days
(a STRICT comparison, unlike the >= of src/agents/compliance.py). Both
arguments are timestamps in whole days, so their difference is the
timedelta .days value the source computes. -/
def license_valid_variant (license_expiry now : Int) : Bool :=
  decide (license_expiry - now > 14)

end ComplianceAgent

-- ── Routing agent (src/agents/routing.py) ────────────────────────────────────

/-- Embeds one element of a Google Distance Matrix response row, the fields
read by RoutingAgent.compute_etas: element status, duration.value in seconds,
distance.value in meters. -/
structure MatrixElement where
  status : String
  duration_s : Rat
  distance_m : Rat
deriving DecidableEq

namespace RoutingAgent

/-- Embeds the RoutingResult construction inside the per-driver loop of
RoutingAgent.compute_etas (src/agents/routing.py): leg1 is the element for
this driver, leg2 the shared pickup-to-dropoff element, and
seconds_until_deliver_by the time remaining until the deadline. -/
def mkResult (driver : Driver) (leg1 leg2 : MatrixElement)
    (seconds_until_deliver_by : Rat) : RoutingResult :=
  { driver_id := driver.driver_id
    eta_to_pickup_minutes := leg1.duration_s / 60
    eta_total_trip_minutes := (leg1.duration_s + leg2.duration_s) / 60
    total_distance_km := (leg1.distance_m + leg2.distance_m) / 1000
    fits_sla := decide (leg1.duration_s + leg2.duration_s ≤ seconds_until_deliver_by) }

/-- Embeds RoutingAgent.compute_etas of src/agents/routing.py. The external
Distance Matrix response is passed in: elems lists rows[i].elements[0] of the
batched drivers-to-pickup call in driver order, leg2 is the shared
pickup-to-dropoff element, and now is datetime.utcnow() in seconds. A driver
whose element has a non-OK status is skipped (continue), producing no result. -/
def compute_etas (eligible_drivers : List Driver) (elems : List MatrixElement)
    (leg2 : MatrixElement) (now : Rat) (order : Order) : List RoutingResult :=
  (eligible_drivers.zip elems).filterMap fun p =>
    if p.2.status == "OK" then
      some (mkResult p.1 p.2 leg2 (order.deliver_by - now))
    else
      none

/-- Embeds the SLA check of RoutingAgent._calculate_single_route in
src/agents/routing_agent.py: the two leg ETAs are converted to minutes and
their sum is compared against the WIDTH of the delivery window,
(time_window.end - time_window.start).total_seconds() / 60 — the current time
is never consulted. tw_start and tw_end are the window datetimes in seconds
(start and end of the OrderRequest time window, the pickup-by and deliver-by
bounds of that model). -/
def fits_sla_variant (leg1 leg2 : MatrixElement) (tw_start tw_end : Rat) : Bool :=
  decide (leg1.duration_s / 60 + leg2.duration_s / 60 ≤ (tw_end - tw_start) / 60)

end RoutingAgent

-- ── Ranking engine (src/agents/ranking.py) ───────────────────────────────────

namespace RankingEngine

/-- Score weights of src/agents/ranking.py. -/
def WEIGHT_ETA : Rat := 1 / 2

/-- Score weight for the km budget factor. -/
def WEIGHT_KM_BUDGET : Rat := 1 / 4

/-- Score weight for the license buffer factor. -/
def WEIGHT_LICENSE_BUFFER : Rat := 1 / 4

/-- Normalisation cap MAX_ETA_MINUTES. -/
def MAX_ETA_MINUTES : Rat := 120

/-- Normalisation cap MAX_KM_BUDGET. -/
def MAX_KM_BUDGET : Rat := 300

/-- Normalisation cap MAX_LICENSE_BUFFER_DAYS. -/
def MAX_LICENSE_BUFFER_DAYS : Rat := 365

/-- Model of Python round(x, 2). Python rounds half to even on binary floats;
modelled over exact rationals as round half away from zero via Mathlib round
(half up for the nonnegative scores produced here). All concrete score values
used in this development are away from a half-hundredth boundary, where the
two conventions agree. -/
def round2 (x : Rat) : Rat := (round (x * 100) : Int) / 100

/-- Modelled from the spec: the pre-rounded weighted score of section 4.3,
namely 100 * (0.50 * eta_score + 0.25 * km_budget_score +
0.25 * license_buffer_score), before any rounding to two decimals. Used to
compare against the score the source actually computes. -/
def scoreExact (today : Int) (driver : Driver) (routing : RoutingResult) : Rat :=
  let days_until_expiry : Rat := ((driver.license_expiry - today : Int) : Rat)
  let eta_norm := 1 - min routing.eta_to_pickup_minutes MAX_ETA_MINUTES / MAX_ETA_MINUTES
  let km_norm := min driver.km_budget_remaining_today MAX_KM_BUDGET / MAX_KM_BUDGET
  let license_norm := min days_until_expiry MAX_LICENSE_BUFFER_DAYS / MAX_LICENSE_BUFFER_DAYS
  (WEIGHT_ETA * eta_norm + WEIGHT_KM_BUDGET * km_norm +
    WEIGHT_LICENSE_BUFFER * license_norm) * 100

/-- Embeds RankingEngine._score of src/agents/ranking.py: the weighted
normalised score, rounded to two decimals BEFORE being returned (the value
stored on the candidate and used as the sort key is the rounded one).
date.today() is the explicit parameter today. -/
def score (today : Int) (driver : Driver) (routing : RoutingResult) : Rat :=
  round2 (scoreExact today driver routing)

/-- Model of the Python dict built by a comprehension over a result list keyed
by driver_id, then .get(key): for duplicate keys the LAST entry wins, so the
lookup is find? over the reversed list. -/
def dictGet {α : Type} (idOf : α → String) (l : List α) (key : String) : Option α :=
  l.reverse.find? (fun r => idOf r == key)

/-- Embeds the per-driver candidate construction inside RankingEngine.rank:
rank is 0 until assigned after the sort, exactly as in the source. -/
def mkCandidate (today : Int) (d : Driver) (c : ComplianceResult)
    (r : RoutingResult) : RankedDriver :=
  { driver_id := d.driver_id
    name := d.name
    phone := d.phone
    score := score today d r
    rank := 0
    eta_to_pickup_minutes := r.eta_to_pickup_minutes
    eta_total_trip_minutes := r.eta_total_trip_minutes
    compliance := c
    routing := r }

/-- Embeds the candidate-selection loop of RankingEngine.rank: a driver is
skipped (continue) unless its compliance lookup exists and is eligible and its
routing lookup exists and fits the SLA. -/
def rankCandidates (today : Int) (drivers : List Driver)
    (compliance_results : List ComplianceResult)
    (routing_results : List RoutingResult) : List RankedDriver :=
  drivers.filterMap fun d =>
    match dictGet ComplianceResult.driver_id compliance_results d.driver_id,
          dictGet RoutingResult.driver_id routing_results d.driver_id with
    | some c, some r =>
        if c.eligible && r.fits_sla then some (mkCandidate today d c r) else none
    | _, _ => none

/-- The Boolean gate of the candidate-selection loop, used to state claims. -/
def passesGates (compliance_results : List ComplianceResult)
    (routing_results : List RoutingResult) (d : Driver) : Bool :=
  match dictGet ComplianceResult.driver_id compliance_results d.driver_id,
        dictGet RoutingResult.driver_id routing_results d.driver_id with
  | some c, some r => c.eligible && r.fits_sla
  | _, _ => false

/-- Stable descending insertion used to embed candidates.sort(key=score,
reverse=True): Python list.sort is stable, and inserting each element before
the first strictly-smaller-scored element of the sorted remainder is the
unique stable descending sort. -/
def insertDesc (x : RankedDriver) : List RankedDriver → List RankedDriver
  | [] => [x]
  | y :: ys => if y.score ≤ x.score then x :: y :: ys else y :: insertDesc x ys

/-- Stable descending sort by score (see insertDesc). -/
def sortDesc : List RankedDriver → List RankedDriver
  | [] => []
  | x :: xs => insertDesc x (sortDesc xs)

/-- Embeds the post-sort rank assignment loop of RankingEngine.rank:
for i, d in enumerate(candidates): d.rank = i + 1. -/
def assignRanksFrom (n : Nat) : List RankedDriver → List RankedDriver
  | [] => []
  | x :: xs => { x with rank := n } :: assignRanksFrom (n + 1) xs

/-- Embeds RankingEngine.rank of src/agents/ranking.py: select gated
candidates in driver order, sort stably by descending score, then assign
1-based ranks. -/
def rank (today : Int) (drivers : List Driver)
    (compliance_results : List ComplianceResult)
    (routing_results : List RoutingResult) : List RankedDriver :=
  assignRanksFrom 1 (sortDesc (rankCandidates today drivers compliance_results routing_results))

/-- Helper used in claims: forget the rank assigned after sorting (candidates
are created with rank 0). -/
def clearRank (c : RankedDriver) : RankedDriver := { c with rank := 0 }

end RankingEngine

-- ── Voice dispatch loop (src/agents/voice_dispatch.py) ───────────────────────

namespace VoiceDispatchAgent

/-- Embeds VoiceDispatchAgent.dispatch of src/agents/voice_dispatch.py. The
external call (_call_driver, one voice call session per driver) is the
parameter call. The second component instruments the loop with the list of
drivers for which a call session is opened, in the order the loop contacts
them; the first component is the return value of the source function: the
outcome of the first driver whose call is accepted, else none after the list
is exhausted. -/
def dispatch (call : RankedDriver → DispatchOutcome) :
    List RankedDriver → Option DispatchOutcome × List RankedDriver
  | [] => (none, [])
  | d :: rest =>
    if (call d).outcome == "accepted" then
      (some (call d), [d])
    else
      ((dispatch call rest).1, d :: (dispatch call rest).2)

end VoiceDispatchAgent

-- ── Orchestrator (src/agents/orchestrator.py) ────────────────────────────────

/-- Embeds the summary dict returned by OrchestratorAgent.process_order:
status, the failure reason key when present, order_id, and the assigned driver
when present (the calls_attempted count is omitted). -/
structure PipelineResult where
  status : String
  reason : Option String
  order_id : String
  assigned_driver_id : Option String
deriving DecidableEq

namespace OrchestratorAgent

/-- Embeds OrchestratorAgent.process_order of src/agents/orchestrator.py for
an already-parsed order (GPT parsing, audit writes and external transports are
outside the embedded control flow; route matrix data and per-driver call
outcomes are explicit parameters). Every gate of the source pipeline is
embedded: empty pool, compliance exhaustion, empty ranking, and the dispatch
loop outcome. -/
def process_order (today : Int) (now : Rat) (order : Order)
    (all_drivers : List Driver) (elems : List MatrixElement)
    (leg2 : MatrixElement) (call : RankedDriver → DispatchOutcome) :
    PipelineResult :=
  if all_drivers.isEmpty then
    { status := "failed", reason := some "no_active_drivers"
      order_id := order.order_id, assigned_driver_id := none }
  else
    let compliance_results := ComplianceAgent.check_all today all_drivers order
    let eligible_drivers := all_drivers.filter fun d =>
      compliance_results.any fun r => r.eligible && (r.driver_id == d.driver_id)
    if eligible_drivers.isEmpty then
      { status := "failed", reason := some "no_eligible_drivers"
        order_id := order.order_id, assigned_driver_id := none }
    else
      let routing_results := RoutingAgent.compute_etas eligible_drivers elems leg2 now order
      let ranked_drivers := RankingEngine.rank today all_drivers compliance_results routing_results
      if ranked_drivers.isEmpty then
        { status := "failed", reason := some "no_sla_feasible_drivers"
          order_id := order.order_id, assigned_driver_id := none }
      else
        match (VoiceDispatchAgent.dispatch call ranked_drivers).1 with
        | some outcome =>
          if outcome.outcome == "accepted" then
            { status := "assigned", reason := none
              order_id := order.order_id, assigned_driver_id := some outcome.driver_id }
          else
            { status := "failed", reason := some "all_drivers_declined"
              order_id := order.order_id, assigned_driver_id := none }
        | none =>
          { status := "failed", reason := some "all_drivers_declined"
            order_id := order.order_id, assigned_driver_id := none }

end OrchestratorAgent

-- ═══════════════════════════════ Theorems ════════════════════════════════════

-- ── Helper lemmas: repeat loop ───────────────────────────────────────────────

/-- Round-count bound for the repeat loop, by induction on the remaining
repeat budget. -/
theorem repeat_loop_rounds_le (ts : Nat → String) :
    ∀ (n i c : Nat), MAX_REPEATS - c ≤ n →
      (repeat_loop ts i c).1 ≤ MAX_REPEATS - c + 1 := by
  intro n
  induction n with
  | zero =>
    intro i c h
    rw [repeat_loop]
    split
    · next hc => exact absurd hc.2 (by omega)
    · simp
  | succ n ih =>
    intro i c h
    rw [repeat_loop]
    split
    · next hc =>
      have hrec := ih (i + 1) (c + 1) (by omega)
      have hc2 := hc.2
      dsimp only
      omega
    · simp

/-- Once the repeat budget is exhausted the loop exits after one round. -/
theorem repeat_loop_at_cap (ts : Nat → String) (i c : Nat)
    (h : MAX_REPEATS ≤ c) : repeat_loop ts i c = (1, ts i) := by
  rw [repeat_loop]
  split
  · next hc => exact absurd hc.2 (by omega)
  · rfl

/-- C7: the record-transcribe-repeat loop of
VoiceDispatchAgent._local_voice_call performs at most MAX_REPEATS + 1 rounds
for any sequence of per-round transcripts (so it always terminates), and once
the repeat count has reached MAX_REPEATS the round proceeds to classification
regardless of the transcript content. -/
theorem claim_C7 :
    (∀ ts : Nat → String, (repeat_loop ts 0 0).1 ≤ MAX_REPEATS + 1)
    ∧ (∀ (ts : Nat → String) (i c : Nat), MAX_REPEATS ≤ c →
        repeat_loop ts i c = (1, ts i)) := by
  constructor
  · intro ts
    have := repeat_loop_rounds_le ts (MAX_REPEATS - 0) 0 0 (le_refl _)
    omega
  · exact repeat_loop_at_cap

/-- Witness for C7 at a concrete input: a transcript asking for a repeat on
every round still exits after one round once the cap is reached. -/
theorem claim_C7_witness :
    repeat_loop (fun _ => "please repeat that") 0 MAX_REPEATS
      = (1, "please repeat that") :=
  claim_C7.2 (fun _ => "please repeat that") 0 MAX_REPEATS (le_refl _)

-- ── Helper lemmas: compliance ────────────────────────────────────────────────

/-- Full characterisation of ComplianceAgent._check_driver: eligibility is the
conjunction of the four rules, the failure list has one tag per violated rule,
and each tag is present exactly when its rule is violated. -/
theorem check_driver_characterisation (today : Int) (driver : Driver) (order : Order) :
    ((ComplianceAgent.check_driver today driver order).eligible
        = (ComplianceAgent.license_ok today driver &&
           ComplianceAgent.vehicle_match driver order &&
           ComplianceAgent.km_budget_ok driver &&
           ComplianceAgent.shift_window_ok driver order))
    ∧ (ComplianceAgent.check_driver today driver order).failure_reasons.length
        = ((if ComplianceAgent.license_ok today driver then 0 else 1) +
           (if ComplianceAgent.vehicle_match driver order then 0 else 1) +
           (if ComplianceAgent.km_budget_ok driver then 0 else 1) +
           (if ComplianceAgent.shift_window_ok driver order then 0 else 1))
    ∧ ((ComplianceAgent.check_driver today driver order).failure_reasons = []
        ↔ (ComplianceAgent.check_driver today driver order).eligible = true)
    ∧ (FailureReason.license_expiring
          ∈ (ComplianceAgent.check_driver today driver order).failure_reasons
        ↔ ComplianceAgent.license_ok today driver = false)
    ∧ (FailureReason.vehicle_mismatch
          ∈ (ComplianceAgent.check_driver today driver order).failure_reasons
        ↔ ComplianceAgent.vehicle_match driver order = false)
    ∧ (FailureReason.insufficient_km_budget
          ∈ (ComplianceAgent.check_driver today driver order).failure_reasons
        ↔ ComplianceAgent.km_budget_ok driver = false)
    ∧ (FailureReason.shift_window_uncovered
          ∈ (ComplianceAgent.check_driver today driver order).failure_reasons
        ↔ ComplianceAgent.shift_window_ok driver order = false) := by
  cases h1 : ComplianceAgent.license_ok today driver <;>
    cases h2 : ComplianceAgent.vehicle_match driver order <;>
      cases h3 : ComplianceAgent.km_budget_ok driver <;>
        cases h4 : ComplianceAgent.shift_window_ok driver order <;>
          simp [ComplianceAgent.check_driver, h1, h2, h3, h4]

/-- C2: for every driver and order the eligibility check evaluates all four
rules: the result is eligible iff all four pass, the failure list carries
exactly one entry per violated rule (its length is the number of violated
rules and it is empty iff eligible), and each rule contributes its entry
independently of the other rules. -/
theorem claim_C2 (today : Int) (driver : Driver) (order : Order) :
    ((ComplianceAgent.check_driver today driver order).eligible
        = (ComplianceAgent.license_ok today driver &&
           ComplianceAgent.vehicle_match driver order &&
           ComplianceAgent.km_budget_ok driver &&
           ComplianceAgent.shift_window_ok driver order))
    ∧ (ComplianceAgent.check_driver today driver order).failure_reasons.length
        = ((if ComplianceAgent.license_ok today driver then 0 else 1) +
           (if ComplianceAgent.vehicle_match driver order then 0 else 1) +
           (if ComplianceAgent.km_budget_ok driver then 0 else 1) +
           (if ComplianceAgent.shift_window_ok driver order then 0 else 1))
    ∧ ((ComplianceAgent.check_driver today driver order).failure_reasons = []
        ↔ (ComplianceAgent.check_driver today driver order).eligible = true)
    ∧ (FailureReason.license_expiring
          ∈ (ComplianceAgent.check_driver today driver order).failure_reasons
        ↔ ComplianceAgent.license_ok today driver = false)
    ∧ (FailureReason.vehicle_mismatch
          ∈ (ComplianceAgent.check_driver today driver order).failure_reasons
        ↔ ComplianceAgent.vehicle_match driver order = false)
    ∧ (FailureReason.insufficient_km_budget
          ∈ (ComplianceAgent.check_driver today driver order).failure_reasons
        ↔ ComplianceAgent.km_budget_ok driver = false)
    ∧ (FailureReason.shift_window_uncovered
          ∈ (ComplianceAgent.check_driver today driver order).failure_reasons
        ↔ ComplianceAgent.shift_window_ok driver order = false) :=
  check_driver_characterisation today driver order

-- Concrete fixtures used by witnesses.

/-- Sample driver violating the vehicle rule and the km rule only (van when a
car is required, 5 km remaining), with a comfortable license and shift. -/
def sampleDriverVanLowKm : Driver :=
  { driver_id := "DRV-VAN", name := "Sam", phone := "+15550001"
    vehicle_type := "van", license_expiry := 200
    km_budget_remaining_today := 5, shift_start := 0, shift_end := 100000 }

/-- Sample order requiring a car with a generous window. -/
def sampleOrderCar : Order :=
  { order_id := "ORD-1", vehicle_type := "car", pickup_by := 3600, deliver_by := 7200 }

/-- Witness for C2 at a concrete input: a driver failing exactly the vehicle
and km rules gets eligible = false and exactly two failure reasons. -/
theorem claim_C2_witness :
    ((ComplianceAgent.check_driver 0 sampleDriverVanLowKm sampleOrderCar).eligible = false)
    ∧ (ComplianceAgent.check_driver 0 sampleDriverVanLowKm sampleOrderCar).failure_reasons.length = 2 := by
  have h := claim_C2 0 sampleDriverVanLowKm sampleOrderCar
  refine ⟨?_, ?_⟩
  · rw [h.1]; decide
  · rw [h.2.1]; decide

/-- C6 (amended): in the canonical ComplianceAgent of src/agents/compliance.py
the license rule passes iff at least 14 days remain (so exactly 14 days
passes, and then no license failure reason is reported), while the
workload-tracking variant of src/agents/compliance_agent.py requires strictly
more than 14 days. -/
theorem claim_C6 (today : Int) (driver : Driver) (order : Order) :
    (ComplianceAgent.license_ok today driver = true
        ↔ driver.license_expiry - today ≥ 14)
    ∧ (FailureReason.license_expiring
          ∉ (ComplianceAgent.check_driver today driver order).failure_reasons
        ↔ driver.license_expiry - today ≥ 14)
    ∧ (∀ e n : Int, ComplianceAgent.license_valid_variant e n = true ↔ e - n > 14) := by
  refine ⟨?_, ?_, ?_⟩
  · simp [ComplianceAgent.license_ok, ComplianceAgent.LICENSE_EXPIRY_BUFFER_DAYS]
  · rw [(check_driver_characterisation today driver order).2.2.2.1]
    simp [ComplianceAgent.license_ok, ComplianceAgent.LICENSE_EXPIRY_BUFFER_DAYS]
  · intro e n
    simp [ComplianceAgent.license_valid_variant]

/-- Sample driver whose license expires in exactly 14 days from day 0. -/
def sampleDriverExpiry14 : Driver :=
  { driver_id := "DRV-14", name := "Kim", phone := "+15550002"
    vehicle_type := "car", license_expiry := 14
    km_budget_remaining_today := 100, shift_start := 0, shift_end := 100000 }

/-- Counterexample for C6 as stated: a driver whose license expires in exactly
14 days passes the license rule of src/agents/compliance.py but FAILS the
strict license check of src/agents/compliance_agent.py, so the two cited
implementations disagree and the claim (exactly 14 days passes the rule) is
false for the compliance_agent.py variant. -/
theorem claim_C6_counterexample :
    ComplianceAgent.license_valid_variant 14 0 = false
    ∧ ComplianceAgent.license_ok 0 sampleDriverExpiry14 = true := by
  constructor
  · decide
  · decide

/-- Witness for C6 at a concrete input: exactly 14 days remaining passes the
canonical rule and leaves no license failure reason, while 15 days is needed
by the variant. -/
theorem claim_C6_witness :
    ComplianceAgent.license_ok 0 sampleDriverExpiry14 = true
    ∧ FailureReason.license_expiring
        ∉ (ComplianceAgent.check_driver 0 sampleDriverExpiry14 sampleOrderCar).failure_reasons
    ∧ ComplianceAgent.license_valid_variant 15 0 = true := by
  have h := claim_C6 0 sampleDriverExpiry14 sampleOrderCar
  refine ⟨h.1.mpr (by decide), h.2.1.mpr (by decide), (h.2.2 15 0).mpr (by decide)⟩

-- ── Helper lemmas: dispatch loop ─────────────────────────────────────────────

/-- The contacted-drivers trace of the dispatch loop is a prefix of the ranked
list: candidates are contacted one at a time in rank order, never skipped or
reordered. -/
theorem dispatch_contacts_in_order (call : RankedDriver → DispatchOutcome) :
    ∀ l : List RankedDriver, (VoiceDispatchAgent.dispatch call l).2 <+: l := by
  intro l
  induction l with
  | nil => simp [VoiceDispatchAgent.dispatch]
  | cons d rest ih =>
    simp only [VoiceDispatchAgent.dispatch]
    split
    · exact ⟨rest, rfl⟩
    · obtain ⟨t, ht⟩ := ih
      exact ⟨t, by simp [ht]⟩

/-- The dispatch loop returns none exactly when no contacted outcome is
accepted. -/
theorem dispatch_none_iff (call : RankedDriver → DispatchOutcome) :
    ∀ l : List RankedDriver,
      (VoiceDispatchAgent.dispatch call l).1 = none
        ↔ ∀ d ∈ l, (call d).outcome ≠ "accepted" := by
  intro l
  induction l with
  | nil => simp [VoiceDispatchAgent.dispatch]
  | cons d rest ih =>
    simp only [VoiceDispatchAgent.dispatch]
    split
    · next h =>
      simp only [beq_iff_eq] at h
      simp [h]
    · next h =>
      simp only [beq_iff_eq] at h
      simp [ih, h]

/-- When the dispatch loop returns none it has contacted every candidate. -/
theorem dispatch_none_trace (call : RankedDriver → DispatchOutcome) :
    ∀ l : List RankedDriver,
      (VoiceDispatchAgent.dispatch call l).1 = none →
        (VoiceDispatchAgent.dispatch call l).2 = l := by
  intro l
  induction l with
  | nil => simp [VoiceDispatchAgent.dispatch]
  | cons d rest ih =>
    simp only [VoiceDispatchAgent.dispatch]
    split
    · simp
    · intro h
      simp only at h
      simp [ih h]

/-- When the dispatch loop returns an outcome, it is the accepted outcome of
the first candidate whose call is accepted, every earlier candidate was
contacted and non-accepted, and the trace stops at that candidate: no call
session is opened for any later candidate. -/
theorem dispatch_some_first (call : RankedDriver → DispatchOutcome) :
    ∀ (l : List RankedDriver) (o : DispatchOutcome),
      (VoiceDispatchAgent.dispatch call l).1 = some o →
        ∃ pre d post, l = pre ++ d :: post
          ∧ (∀ d2 ∈ pre, (call d2).outcome ≠ "accepted")
          ∧ o = call d ∧ o.outcome = "accepted"
          ∧ (VoiceDispatchAgent.dispatch call l).2 = pre ++ [d] := by
  intro l
  induction l with
  | nil => simp [VoiceDispatchAgent.dispatch]
  | cons d rest ih =>
    intro o
    simp only [VoiceDispatchAgent.dispatch]
    split
    · next h =>
      simp only [beq_iff_eq] at h
      intro ho
      simp only [Option.some_inj] at ho
      exact ⟨[], d, rest, rfl, by simp, ho.symm, ho ▸ h, rfl⟩
    · next h =>
      simp only [beq_iff_eq] at h
      intro ho
      simp only at ho
      obtain ⟨pre, dd, post, hsplit, hpre, hod, hacc, htrace⟩ := ih o ho
      refine ⟨d :: pre, dd, post, by simp [hsplit], ?_, hod, hacc, by simp [htrace]⟩
      intro d2 hd2
      rcases List.mem_cons.mp hd2 with h2 | h2
      · exact h2 ▸ h
      · exact hpre d2 h2

/-- C1: the dispatch loop of VoiceDispatchAgent.dispatch contacts candidates
one at a time in ranked-list order (the trace of opened call sessions is a
prefix of the list); it returns none iff every candidate outcome is
non-accepted; on none it has contacted the whole list; and when it returns an
outcome, that outcome is the accepted outcome of the first accepting
candidate and no call session is opened for any later candidate. -/
theorem claim_C1 (call : RankedDriver → DispatchOutcome) (l : List RankedDriver) :
    ((VoiceDispatchAgent.dispatch call l).2 <+: l)
    ∧ ((VoiceDispatchAgent.dispatch call l).1 = none
        ↔ ∀ d ∈ l, (call d).outcome ≠ "accepted")
    ∧ ((VoiceDispatchAgent.dispatch call l).1 = none →
        (VoiceDispatchAgent.dispatch call l).2 = l)
    ∧ (∀ o, (VoiceDispatchAgent.dispatch call l).1 = some o →
        ∃ pre d post, l = pre ++ d :: post
          ∧ (∀ d2 ∈ pre, (call d2).outcome ≠ "accepted")
          ∧ o = call d ∧ o.outcome = "accepted"
          ∧ (VoiceDispatchAgent.dispatch call l).2 = pre ++ [d]) :=
  ⟨dispatch_contacts_in_order call l, dispatch_none_iff call l,
    dispatch_none_trace call l, fun o => dispatch_some_first call l o⟩

-- Concrete fixtures for the dispatch-loop and pipeline witnesses.

/-- Fully-passing compliance fixture. -/
def sampleCompliance (id : String) : ComplianceResult :=
  { driver_id := id, eligible := true, failure_reasons := []
    license_days_remaining := 100, vehicle_match := true
    km_budget_ok := true, shift_window_ok := true }

/-- SLA-feasible routing fixture. -/
def sampleRouting (id : String) : RoutingResult :=
  { driver_id := id, eta_to_pickup_minutes := 10, eta_total_trip_minutes := 20
    total_distance_km := 5, fits_sla := true }

/-- Ranked-candidate fixture. -/
def sampleCand (id : String) : RankedDriver :=
  { driver_id := id, name := id, phone := "+15550003", score := 50, rank := 0
    eta_to_pickup_minutes := 10, eta_total_trip_minutes := 20
    compliance := sampleCompliance id, routing := sampleRouting id }

/-- Three ranked candidates. -/
def sampleRankedList : List RankedDriver :=
  [sampleCand "R1", sampleCand "R2", sampleCand "R3"]

/-- Call oracle: R1 declines, everyone else accepts. -/
def sampleCallScript : RankedDriver → DispatchOutcome := fun d =>
  if d.driver_id == "R1" then
    { driver_id := d.driver_id, outcome := "declined", sentiment_score := none
      decline_reason := some "busy", call_duration_seconds := none }
  else
    { driver_id := d.driver_id, outcome := "accepted", sentiment_score := none
      decline_reason := none, call_duration_seconds := none }

/-- Witness for C1 at a concrete input: with R1 declining and R2 accepting,
the loop returns the outcome of R2 as the first accepting candidate and the
trace shows R3 is never contacted. -/
theorem claim_C1_witness :
    (VoiceDispatchAgent.dispatch sampleCallScript sampleRankedList).1
        = some (sampleCallScript (sampleCand "R2"))
    ∧ ∃ pre d post, sampleRankedList = pre ++ d :: post
        ∧ (∀ d2 ∈ pre, (sampleCallScript d2).outcome ≠ "accepted")
        ∧ sampleCallScript (sampleCand "R2") = sampleCallScript d
        ∧ (sampleCallScript (sampleCand "R2")).outcome = "accepted"
        ∧ (VoiceDispatchAgent.dispatch sampleCallScript sampleRankedList).2 = pre ++ [d] :=
  ⟨by decide,
    (claim_C1 sampleCallScript sampleRankedList).2.2.2
      (sampleCallScript (sampleCand "R2")) (by decide)⟩

-- ── Orchestrator pipeline (C8) ───────────────────────────────────────────────

/-- C8: for every input, the pipeline returns a terminal result: status is
assigned or failed, the result carries the order id, and every failed status
carries one of the four machine-readable reason codes. -/
theorem claim_C8 (today : Int) (now : Rat) (order : Order)
    (all_drivers : List Driver) (elems : List MatrixElement)
    (leg2 : MatrixElement) (call : RankedDriver → DispatchOutcome) :
    ((OrchestratorAgent.process_order today now order all_drivers elems leg2 call).status = "assigned"
      ∨ (OrchestratorAgent.process_order today now order all_drivers elems leg2 call).status = "failed")
    ∧ (OrchestratorAgent.process_order today now order all_drivers elems leg2 call).order_id
        = order.order_id
    ∧ ((OrchestratorAgent.process_order today now order all_drivers elems leg2 call).status = "failed" →
        (OrchestratorAgent.process_order today now order all_drivers elems leg2 call).reason
            = some "no_active_drivers"
        ∨ (OrchestratorAgent.process_order today now order all_drivers elems leg2 call).reason
            = some "no_eligible_drivers"
        ∨ (OrchestratorAgent.process_order today now order all_drivers elems leg2 call).reason
            = some "no_sla_feasible_drivers"
        ∨ (OrchestratorAgent.process_order today now order all_drivers elems leg2 call).reason
            = some "all_drivers_declined") := by
  dsimp only [OrchestratorAgent.process_order]
  split
  · exact ⟨Or.inr rfl, rfl, fun _ => Or.inl rfl⟩
  · split
    · exact ⟨Or.inr rfl, rfl, fun _ => Or.inr (Or.inl rfl)⟩
    · split
      · exact ⟨Or.inr rfl, rfl, fun _ => Or.inr (Or.inr (Or.inl rfl))⟩
      · split
        · split
          · exact ⟨Or.inl rfl, rfl, fun h => absurd h (show "assigned" ≠ "failed" by decide)⟩
          · exact ⟨Or.inr rfl, rfl, fun _ => Or.inr (Or.inr (Or.inr rfl))⟩
        · exact ⟨Or.inr rfl, rfl, fun _ => Or.inr (Or.inr (Or.inr rfl))⟩

/-- Witness for C8 at a concrete input: the empty driver pool produces the
terminal failed result with reason no_active_drivers. -/
theorem claim_C8_witness :
    (OrchestratorAgent.process_order 0 0 sampleOrderCar [] [] ⟨"OK", 60, 1000⟩
        sampleCallScript).status = "failed"
    ∧ (OrchestratorAgent.process_order 0 0 sampleOrderCar [] [] ⟨"OK", 60, 1000⟩
        sampleCallScript).reason = some "no_active_drivers" := by
  have h := claim_C8 0 0 sampleOrderCar [] [] ⟨"OK", 60, 1000⟩ sampleCallScript
  refine ⟨by decide, ?_⟩
  have hfailed : (OrchestratorAgent.process_order 0 0 sampleOrderCar [] [] ⟨"OK", 60, 1000⟩
      sampleCallScript).status = "failed" := by decide
  rcases h.2.2 hfailed with hr | hr | hr | hr
  · exact hr
  all_goals
    exact absurd hr (by decide)

-- ── Helper lemmas: strings and keyword matching ──────────────────────────────

/-- Substring containment agrees with the infix relation on character lists. -/
theorem listContains_correct (pat : List Char) :
    ∀ hay : List Char, listContains pat hay = true ↔ pat <:+: hay := by
  intro hay
  induction hay with
  | nil => simp [listContains, List.isEmpty_iff, List.infix_nil]
  | cons c t ih =>
    simp [listContains, Bool.or_eq_true, List.isPrefixOf_iff_prefix, ih,
      List.infix_cons_iff]

/-- Lowercasing keeps whitespace characters fixed. -/
theorem toLower_of_whitespace (c : Char) (h : c.isWhitespace = true) :
    c.toLower = c := by
  simp [Char.isWhitespace] at h
  rcases h with ((h | h) | h) | h <;> subst h <;> decide

/-- A stripped character list is empty exactly when every character is
whitespace (Python: not s.strip()). -/
theorem stripList_eq_nil_iff (l : List Char) :
    stripList l = [] ↔ ∀ c ∈ l, c.isWhitespace = true := by
  unfold stripList
  rw [List.reverse_eq_nil_iff, List.dropWhile_eq_nil_iff]
  constructor
  · intro h c hc
    have hsplit := List.takeWhile_append_dropWhile Char.isWhitespace l
    rw [← hsplit] at hc
    rcases List.mem_append.mp hc with hm | hm
    · exact List.mem_takeWhile_imp hm
    · exact h c (List.mem_reverse.mpr hm)
  · intro h c hc
    exact h c ((List.dropWhile_sublist Char.isWhitespace).subset
      (List.mem_reverse.mp hc))

/-- The stripped string is empty exactly when the transcript is empty or
whitespace-only. -/
theorem stripStr_eq_empty_iff (s : String) :
    stripStr s = "" ↔ ∀ c ∈ s.data, c.isWhitespace = true := by
  rw [String.ext_iff]
  exact stripList_eq_nil_iff s.data

/-- A transcript whose lowercase form contains a keyword with a
non-whitespace character is not whitespace-only. -/
theorem strip_ne_empty_of_contains (s : String) (pat : List Char) (c0 : Char)
    (hc0 : c0 ∈ pat) (hws : c0.isWhitespace = false)
    (h : listContains pat (lowerStr s).data = true) :
    ¬ stripStr s = "" := by
  intro hblank
  have hall := (stripStr_eq_empty_iff s).mp hblank
  have hinf : pat <:+: (lowerStr s).data := (listContains_correct pat _).mp h
  have hc0mem : c0 ∈ (lowerStr s).data := hinf.sublist.subset hc0
  have : c0 ∈ s.data.map Char.toLower := hc0mem
  obtain ⟨c, hcmem, hceq⟩ := List.mem_map.mp this
  have hcws := hall c hcmem
  rw [toLower_of_whitespace c hcws] at hceq
  rw [hceq] at hcws
  rw [hcws] at hws
  exact Bool.true_eq_false.mp hws

/-- C3: intent classification of VoiceDispatchAgent._parse_outcome. An empty
or whitespace-only transcript declines with reason No response received;
otherwise any accept-keyword hit accepts with no decline reason (regardless
of decline keywords, since the accept loop runs first); otherwise a
decline-keyword hit declines (with the stripped transcript as the reason);
otherwise the transcript declines with reason No clear response received. -/
theorem claim_C3 (t : String) :
    (stripStr t = "" →
      parse_outcome t = (CallOutcome.declined, some "No response received"))
    ∧ (stripStr t ≠ "" →
        ACCEPT_KEYWORDS.any (fun kw => listContains kw.data (lowerStr t).data) = true →
          parse_outcome t = (CallOutcome.accepted, none))
    ∧ (stripStr t ≠ "" →
        ACCEPT_KEYWORDS.any (fun kw => listContains kw.data (lowerStr t).data) = false →
          DECLINE_KEYWORDS.any (fun kw => listContains kw.data (lowerStr t).data) = true →
            parse_outcome t = (CallOutcome.declined, some (stripStr t)))
    ∧ (stripStr t ≠ "" →
        ACCEPT_KEYWORDS.any (fun kw => listContains kw.data (lowerStr t).data) = false →
          DECLINE_KEYWORDS.any (fun kw => listContains kw.data (lowerStr t).data) = false →
            parse_outcome t = (CallOutcome.declined, some "No clear response received"))
    ∧ (stripStr t = "" ↔ ∀ c ∈ t.data, c.isWhitespace = true) := by
  refine ⟨?_, ?_, ?_, ?_, stripStr_eq_empty_iff t⟩
  · intro h
    simp [parse_outcome, h]
  · intro h hacc
    simp [parse_outcome, h, hacc]
  · intro h hacc hdec
    simp [parse_outcome, h, hacc, hdec]
  · intro h hacc hdec
    simp [parse_outcome, h, hacc, hdec]

/-- Witness for C3 at concrete inputs: silence declines with the fixed
reason; yeah I can do it is accepted with no decline reason (Scenario D);
too busy today declines; a transcript with no keyword declines with the
no-clear-response reason. -/
theorem claim_C3_witness :
    parse_outcome "   " = (CallOutcome.declined, some "No response received")
    ∧ parse_outcome "yeah I can do it" = (CallOutcome.accepted, none)
    ∧ parse_outcome " too busy today " = (CallOutcome.declined, some "too busy today")
    ∧ parse_outcome "hm hm" = (CallOutcome.declined, some "No clear response received") :=
  ⟨(claim_C3 "   ").1 (by decide),
    (claim_C3 "yeah I can do it").2.1 (by decide) (by decide),
    (claim_C3 " too busy today ").2.2.1 (by decide) (by decide) (by decide),
    (claim_C3 "hm hm").2.2.2.1 (by decide) (by decide) (by decide)⟩

/-- C10: because keyword matching is a case-insensitive substring test and
the accept loop runs before the decline loop, every transcript whose
lowercase form contains the substring i can is classified accepted with no
decline reason, even when decline keywords are also present. -/
theorem claim_C10 (t : String)
    (h : listContains "i can".data (lowerStr t).data = true) :
    parse_outcome t = (CallOutcome.accepted, none) := by
  have hne : ¬ stripStr t = "" :=
    strip_ne_empty_of_contains t "i can".data 'i' (by decide) (by decide) h
  have hacc : ACCEPT_KEYWORDS.any
      (fun kw => listContains kw.data (lowerStr t).data) = true :=
    List.any_eq_true.mpr ⟨"i can", by decide, h⟩
  simp [parse_outcome, hne, hacc]

/-- Witness for C10 at the concrete refusal transcript I can not-t do it
(with an apostrophe): its lowercase form contains both the accept substring
i can (inside can-apostrophe-t) and decline keywords, yet it is classified
accepted with no decline reason. -/
theorem claim_C10_witness :
    listContains "i can".data (lowerStr "I can\x27t do it").data = true
    ∧ listContains "can\x27t".data (lowerStr "I can\x27t do it").data = true
    ∧ parse_outcome "I can\x27t do it" = (CallOutcome.accepted, none) :=
  ⟨by decide, by decide, claim_C10 "I can\x27t do it" (by decide)⟩

-- ── Helper lemmas: routing feasibility ───────────────────────────────────────

/-- The driver ids of the computed routing results form a sublist of the input
driver ids: at most one result per input driver, in input order. -/
theorem compute_etas_ids_sublist (leg2 : MatrixElement) (now : Rat) (order : Order) :
    ∀ (drivers : List Driver) (elems : List MatrixElement),
      ((RoutingAgent.compute_etas drivers elems leg2 now order).map
          RoutingResult.driver_id).Sublist (drivers.map Driver.driver_id) := by
  intro drivers
  induction drivers with
  | nil => intro elems; simp [RoutingAgent.compute_etas]
  | cons d t ih =>
    intro elems
    cases elems with
    | nil => simp [RoutingAgent.compute_etas]
    | cons e t2 =>
      by_cases hOK : (e.status == "OK") = true
      · have hstep : RoutingAgent.compute_etas (d :: t) (e :: t2) leg2 now order
            = RoutingAgent.mkResult d e leg2 (order.deliver_by - now) ::
              RoutingAgent.compute_etas t t2 leg2 now order := by
          simp [RoutingAgent.compute_etas, List.filterMap_cons, beq_iff_eq.mp hOK]
        rw [hstep]
        simp only [List.map_cons]
        exact (ih t2).cons₂ _
      · have hstep : RoutingAgent.compute_etas (d :: t) (e :: t2) leg2 now order
            = RoutingAgent.compute_etas t t2 leg2 now order := by
          have hne : ¬ e.status = "OK" := by simpa using hOK
          simp [RoutingAgent.compute_etas, List.filterMap_cons, hne]
        rw [hstep]
        simp only [List.map_cons]
        exact (ih t2).cons _

/-- C5 (amended): compute_etas of src/agents/routing.py behaves as the claim
states — at most one result per input driver (result ids are a sublist of
driver ids), a driver is included exactly when its matrix element has status
OK (non-OK drivers are omitted entirely), and for each included driver
fits_sla is true iff leg1 + leg2 duration fits in the time remaining until
the deliver-by deadline. The variant _calculate_single_route of
src/agents/routing_agent.py, also cited by the claim, instead accepts a
driver iff the total trip duration fits in the WIDTH of the delivery window
(end minus start), never consulting the current time. -/
theorem claim_C5 (drivers : List Driver) (elems : List MatrixElement)
    (leg2 : MatrixElement) (now : Rat) (order : Order)
    (hlen : elems.length = drivers.length) :
    (((RoutingAgent.compute_etas drivers elems leg2 now order).map
        RoutingResult.driver_id).Sublist (drivers.map Driver.driver_id))
    ∧ (∀ p ∈ drivers.zip elems, p.2.status = "OK" →
        RoutingAgent.mkResult p.1 p.2 leg2 (order.deliver_by - now)
          ∈ RoutingAgent.compute_etas drivers elems leg2 now order)
    ∧ (∀ r ∈ RoutingAgent.compute_etas drivers elems leg2 now order,
        ∃ p ∈ drivers.zip elems, p.2.status = "OK" ∧
          r = RoutingAgent.mkResult p.1 p.2 leg2 (order.deliver_by - now))
    ∧ (∀ (d : Driver) (e l2 : MatrixElement) (s : Rat),
        (RoutingAgent.mkResult d e l2 s).fits_sla = true ↔
          e.duration_s + l2.duration_s ≤ s)
    ∧ (∀ (l1 l2 : MatrixElement) (ws we : Rat),
        RoutingAgent.fits_sla_variant l1 l2 ws we = true ↔
          l1.duration_s + l2.duration_s ≤ we - ws) := by
  have _hl := hlen
  refine ⟨compute_etas_ids_sublist leg2 now order drivers elems, ?_, ?_, ?_, ?_⟩
  · intro p hp hOK
    exact List.mem_filterMap.mpr ⟨p, hp, by simp [hOK]⟩
  · intro r hr
    obtain ⟨p, hp, heq⟩ := List.mem_filterMap.mp hr
    by_cases hOK : p.2.status = "OK"
    · refine ⟨p, hp, hOK, ?_⟩
      simp only [hOK] at heq
      simp at heq
      exact heq.symm
    · simp [hOK] at heq
  · intro d e l2 s
    simp [RoutingAgent.mkResult]
  · intro l1 l2 ws we
    simp only [RoutingAgent.fits_sla_variant, decide_eq_true_eq]
    rw [div_add_div_same, div_le_div_iff_of_pos_right (show (0:ℚ) < 60 by norm_num)]

-- Concrete fixtures for the routing witness.

/-- Driver fixture with a viable route. -/
def sampleDriverNear : Driver :=
  { driver_id := "DRV-NEAR", name := "Lee", phone := "+15550004"
    vehicle_type := "car", license_expiry := 200
    km_budget_remaining_today := 100, shift_start := 0, shift_end := 100000 }

/-- Driver fixture with no viable route. -/
def sampleDriverIsland : Driver :=
  { driver_id := "DRV-ISLAND", name := "Ora", phone := "+15550005"
    vehicle_type := "car", license_expiry := 200
    km_budget_remaining_today := 100, shift_start := 0, shift_end := 100000 }

/-- Matrix element with an OK route of 600 seconds. -/
def sampleElemOK : MatrixElement := { status := "OK", duration_s := 600, distance_m := 4000 }

/-- Matrix element with no route. -/
def sampleElemNoRoute : MatrixElement :=
  { status := "ZERO_RESULTS", duration_s := 0, distance_m := 0 }

/-- Shared pickup-to-dropoff leg of 900 seconds. -/
def sampleLeg2 : MatrixElement := { status := "OK", duration_s := 900, distance_m := 7000 }

unseal Rat.add Rat.sub Rat.mul Rat.inv in
/-- Witness for C5 at a concrete input: with one OK driver and one no-route
driver, the OK driver is included (fits_sla true for a 1500 s trip against a
7200 s window), the no-route driver contributes nothing, and the variant
check accepts the same legs against the 7200 s window width. -/
theorem claim_C5_witness :
    (RoutingAgent.mkResult sampleDriverNear sampleElemOK sampleLeg2
        (sampleOrderCar.deliver_by - 0)
      ∈ RoutingAgent.compute_etas [sampleDriverNear, sampleDriverIsland]
          [sampleElemOK, sampleElemNoRoute] sampleLeg2 0 sampleOrderCar)
    ∧ (RoutingAgent.mkResult sampleDriverNear sampleElemOK sampleLeg2
        (sampleOrderCar.deliver_by - 0)).fits_sla = true
    ∧ RoutingAgent.fits_sla_variant sampleElemOK sampleLeg2 0
        sampleOrderCar.deliver_by = true :=
  ⟨(claim_C5 [sampleDriverNear, sampleDriverIsland] [sampleElemOK, sampleElemNoRoute]
      sampleLeg2 0 sampleOrderCar rfl).2.1
      (sampleDriverNear, sampleElemOK) (by decide) (by decide),
    ((claim_C5 [sampleDriverNear, sampleDriverIsland] [sampleElemOK, sampleElemNoRoute]
      sampleLeg2 0 sampleOrderCar rfl).2.2.2.1 sampleDriverNear sampleElemOK sampleLeg2
      (sampleOrderCar.deliver_by - 0)).mpr (by decide),
    ((claim_C5 [sampleDriverNear, sampleDriverIsland] [sampleElemOK, sampleElemNoRoute]
      sampleLeg2 0 sampleOrderCar rfl).2.2.2.2 sampleElemOK sampleLeg2 0
      sampleOrderCar.deliver_by).mpr (by decide)⟩

unseal Rat.add Rat.sub Rat.mul Rat.inv in
/-- Counterexample for C5 as stated: at a current time of 3000 s into a
0..3600 s delivery window, a trip of two 900 s legs (1800 s total) exceeds
the 600 s remaining until the deadline — the canonical embedding of
src/agents/routing.py marks it infeasible — yet the variant check of
src/agents/routing_agent.py accepts it, because it compares the 30 min trip
against the 60 min window width and never consults the current time. So the
claimed iff (fits_sla true exactly when the trip fits in the time remaining
from now until deliver-by) is false for that cited implementation. -/
theorem claim_C5_counterexample :
    RoutingAgent.fits_sla_variant sampleLeg2 sampleLeg2 0 3600 = true
    ∧ ¬ (sampleLeg2.duration_s + sampleLeg2.duration_s ≤ (3600 - 3000 : ℚ))
    ∧ (RoutingAgent.mkResult sampleDriverNear sampleLeg2 sampleLeg2
        ((3600 : ℚ) - 3000)).fits_sla = false :=
  ⟨by decide, by decide, by decide⟩

-- ── Helper lemmas: stable descending sort ────────────────────────────────────

/-- Inserting permutes to consing. -/
theorem insertDesc_perm (x : RankedDriver) :
    ∀ l : List RankedDriver, (RankingEngine.insertDesc x l).Perm (x :: l) := by
  intro l
  induction l with
  | nil => simp [RankingEngine.insertDesc]
  | cons y ys ih =>
    by_cases hyx : y.score ≤ x.score
    · simp [RankingEngine.insertDesc, hyx]
    · simp only [RankingEngine.insertDesc, if_neg hyx]
      exact (ih.cons y).trans (List.Perm.swap x y ys)

/-- Sorting permutes the candidate list. -/
theorem sortDesc_perm : ∀ l : List RankedDriver, (RankingEngine.sortDesc l).Perm l := by
  intro l
  induction l with
  | nil => simp [RankingEngine.sortDesc]
  | cons x xs ih =>
    exact (insertDesc_perm x (RankingEngine.sortDesc xs)).trans (ih.cons x)

/-- Inserting preserves the non-increasing-score invariant. -/
theorem insertDesc_pairwise (x : RankedDriver) :
    ∀ l : List RankedDriver,
      l.Pairwise (fun a b => b.score ≤ a.score) →
        (RankingEngine.insertDesc x l).Pairwise (fun a b => b.score ≤ a.score) := by
  intro l
  induction l with
  | nil => intro h; simp [RankingEngine.insertDesc]
  | cons y ys ih =>
    intro h
    rw [List.pairwise_cons] at h
    by_cases hyx : y.score ≤ x.score
    · simp only [RankingEngine.insertDesc, if_pos hyx]
      rw [List.pairwise_cons]
      refine ⟨?_, List.pairwise_cons.mpr h⟩
      intro b hb
      rcases List.mem_cons.mp hb with hb | hb
      · exact hb ▸ hyx
      · exact le_trans (h.1 b hb) hyx
    · simp only [RankingEngine.insertDesc, if_neg hyx]
      rw [List.pairwise_cons]
      refine ⟨?_, ih h.2⟩
      intro b hb
      have hb2 := (insertDesc_perm x ys).subset hb
      rcases List.mem_cons.mp hb2 with hb2 | hb2
      · exact hb2 ▸ le_of_lt (not_le.mp hyx)
      · exact h.1 b hb2

/-- The sorted candidate list is non-increasing in score. -/
theorem sortDesc_pairwise :
    ∀ l : List RankedDriver,
      (RankingEngine.sortDesc l).Pairwise (fun a b => b.score ≤ a.score) := by
  intro l
  induction l with
  | nil => simp [RankingEngine.sortDesc]
  | cons x xs ih => exact insertDesc_pairwise x _ ih

/-- Inserting an element puts it after every equal-scored element already
present: filtering any score class commutes with the insertion, with the new
element in front exactly when it belongs to the class. -/
theorem insertDesc_filter (s : Rat) (x : RankedDriver) :
    ∀ l : List RankedDriver,
      (RankingEngine.insertDesc x l).filter (fun c => decide (c.score = s))
        = if x.score = s then
            x :: l.filter (fun c => decide (c.score = s))
          else l.filter (fun c => decide (c.score = s)) := by
  intro l
  induction l with
  | nil => by_cases hxs : x.score = s <;> simp [RankingEngine.insertDesc, hxs]
  | cons y ys ih =>
    by_cases hyx : y.score ≤ x.score
    · rw [show RankingEngine.insertDesc x (y :: ys) = x :: y :: ys from by
        simp [RankingEngine.insertDesc, hyx]]
      by_cases hxs : x.score = s <;> simp [List.filter_cons, hxs]
    · have hxy : x.score < y.score := not_le.mp hyx
      rw [show RankingEngine.insertDesc x (y :: ys)
          = y :: RankingEngine.insertDesc x ys from by
        simp [RankingEngine.insertDesc, hyx]]
      by_cases hxs : x.score = s
      · have hys : ¬ y.score = s := by
          rw [← hxs]
          exact ne_of_gt hxy
        simp [List.filter_cons, ih, hxs, hys]
      · simp [List.filter_cons, ih, hxs]

/-- Stability of the sort: every score class appears in the sorted list in
its original input order. -/
theorem sortDesc_filter (s : Rat) :
    ∀ l : List RankedDriver,
      (RankingEngine.sortDesc l).filter (fun c => decide (c.score = s))
        = l.filter (fun c => decide (c.score = s)) := by
  intro l
  induction l with
  | nil => simp [RankingEngine.sortDesc]
  | cons x xs ih =>
    simp only [RankingEngine.sortDesc]
    rw [insertDesc_filter, ih, List.filter_cons]
    by_cases hxs : x.score = s <;> simp [hxs]

-- ── Helper lemmas: rank assignment ───────────────────────────────────────────

/-- Rank assignment changes only the rank field. -/
theorem assignRanksFrom_map_clearRank :
    ∀ (n : Nat) (l : List RankedDriver),
      (RankingEngine.assignRanksFrom n l).map RankingEngine.clearRank
        = l.map RankingEngine.clearRank := by
  intro n l
  induction l generalizing n with
  | nil => simp [RankingEngine.assignRanksFrom]
  | cons x xs ih =>
    simp [RankingEngine.assignRanksFrom, ih, RankingEngine.clearRank]

/-- Rank assignment preserves scores. -/
theorem assignRanksFrom_mem_score :
    ∀ (n : Nat) (l : List RankedDriver) (b : RankedDriver),
      b ∈ RankingEngine.assignRanksFrom n l → ∃ a ∈ l, b.score = a.score := by
  intro n l
  induction l generalizing n with
  | nil => intro b hb; simp [RankingEngine.assignRanksFrom] at hb
  | cons x xs ih =>
    intro b hb
    simp only [RankingEngine.assignRanksFrom] at hb
    rcases List.mem_cons.mp hb with hb | hb
    · exact ⟨x, List.mem_cons_self x xs, by rw [hb]⟩
    · obtain ⟨a, ha, hsc⟩ := ih (n + 1) b hb
      exact ⟨a, List.mem_cons_of_mem x ha, hsc⟩

/-- Rank assignment preserves the non-increasing-score invariant. -/
theorem assignRanksFrom_pairwise :
    ∀ (n : Nat) (l : List RankedDriver),
      l.Pairwise (fun a b => b.score ≤ a.score) →
        (RankingEngine.assignRanksFrom n l).Pairwise (fun a b => b.score ≤ a.score) := by
  intro n l
  induction l generalizing n with
  | nil => intro h; simp [RankingEngine.assignRanksFrom]
  | cons x xs ih =>
    intro h
    rw [List.pairwise_cons] at h
    simp only [RankingEngine.assignRanksFrom]
    rw [List.pairwise_cons]
    refine ⟨?_, ih (n + 1) h.2⟩
    intro b hb
    obtain ⟨a, ha, hsc⟩ := assignRanksFrom_mem_score (n + 1) xs b hb
    rw [hsc]
    exact h.1 a ha

/-- The assigned ranks are consecutive starting at n. -/
theorem assignRanksFrom_map_rank :
    ∀ (n : Nat) (l : List RankedDriver),
      (RankingEngine.assignRanksFrom n l).map RankedDriver.rank
        = List.range' n l.length := by
  intro n l
  induction l generalizing n with
  | nil => simp [RankingEngine.assignRanksFrom]
  | cons x xs ih =>
    simp [RankingEngine.assignRanksFrom, ih, List.range'_succ]

/-- Rank assignment preserves length. -/
theorem assignRanksFrom_length :
    ∀ (n : Nat) (l : List RankedDriver),
      (RankingEngine.assignRanksFrom n l).length = l.length := by
  intro n l
  induction l generalizing n with
  | nil => simp [RankingEngine.assignRanksFrom]
  | cons x xs ih => simp [RankingEngine.assignRanksFrom, ih]

-- ── Helper lemmas: candidate selection ───────────────────────────────────────

/-- Every selected candidate is an mkCandidate of some gated driver. -/
theorem rankCandidates_mem (today : Int) (drivers : List Driver)
    (cs : List ComplianceResult) (rs : List RoutingResult) (c : RankedDriver)
    (hc : c ∈ RankingEngine.rankCandidates today drivers cs rs) :
    ∃ (d : Driver) (cr : ComplianceResult) (r : RoutingResult),
      c = RankingEngine.mkCandidate today d cr r := by
  obtain ⟨d, _hd, heq⟩ := List.mem_filterMap.mp hc
  rcases hdg : RankingEngine.dictGet ComplianceResult.driver_id cs d.driver_id with _ | cr
  · rw [hdg] at heq
    simp at heq
  · rcases hrg : RankingEngine.dictGet RoutingResult.driver_id rs d.driver_id with _ | r
    · rw [hdg, hrg] at heq
      simp at heq
    · rw [hdg, hrg] at heq
      by_cases he : (cr.eligible && r.fits_sla) = true
      · simp only [he, if_true] at heq
        exact ⟨d, cr, r, (Option.some_inj.mp heq).symm⟩
      · simp [he] at heq

/-- Candidates are created with rank 0; clearing the rank is the identity on
them. -/
theorem rankCandidates_clearRank (today : Int) (drivers : List Driver)
    (cs : List ComplianceResult) (rs : List RoutingResult) :
    (RankingEngine.rankCandidates today drivers cs rs).map RankingEngine.clearRank
      = RankingEngine.rankCandidates today drivers cs rs := by
  rw [show RankingEngine.rankCandidates today drivers cs rs
      = (RankingEngine.rankCandidates today drivers cs rs).map id by simp]
  rw [List.map_map]
  apply List.map_congr_left
  intro c hcmem
  simp only [Function.comp, id]
  obtain ⟨d, cr, r, rfl⟩ := rankCandidates_mem today drivers cs rs c (by simpa using hcmem)
  rfl

/-- Maps over a filterMap and over the matching filter agree when the partial
function succeeds exactly on the filtered elements and preserves the id. -/
theorem map_filterMap_eq_map_filter {A B : Type} (f : A → Option B) (g : A → Bool)
    (idA : A → String) (idB : B → String)
    (h1 : ∀ a b, f a = some b → idB b = idA a)
    (h2 : ∀ a, (f a).isSome = g a) :
    ∀ l : List A, (l.filterMap f).map idB = (l.filter g).map idA := by
  intro l
  induction l with
  | nil => simp
  | cons a t ih =>
    rw [List.filterMap_cons, List.filter_cons]
    cases hfa : f a with
    | none =>
      have hg : g a = false := by rw [← h2]; simp [hfa]
      simp [hg, ih]
    | some b =>
      have hg : g a = true := by rw [← h2]; simp [hfa]
      simp [hg, ih, h1 a b hfa]

/-- The ids of the selected candidates are exactly the ids of the gated
drivers, in input order. -/
theorem rankCandidates_ids (today : Int) (cs : List ComplianceResult)
    (rs : List RoutingResult) (drivers : List Driver) :
    (RankingEngine.rankCandidates today drivers cs rs).map RankedDriver.driver_id
      = (drivers.filter (RankingEngine.passesGates cs rs)).map Driver.driver_id := by
  apply map_filterMap_eq_map_filter
  · intro d c hfc
    rcases hdg : RankingEngine.dictGet ComplianceResult.driver_id cs d.driver_id with _ | cr
    · rw [hdg] at hfc
      simp at hfc
    · rcases hrg : RankingEngine.dictGet RoutingResult.driver_id rs d.driver_id with _ | r
      · rw [hdg, hrg] at hfc
        simp at hfc
      · rw [hdg, hrg] at hfc
        by_cases he : (cr.eligible && r.fits_sla) = true
        · simp only [he, if_true] at hfc
          rw [← Option.some_inj.mp hfc]
          rfl
        · simp [he] at hfc
  · intro d
    simp only [RankingEngine.passesGates]
    rcases hdg : RankingEngine.dictGet ComplianceResult.driver_id cs d.driver_id with _ | cr
    · simp
    · rcases hrg : RankingEngine.dictGet RoutingResult.driver_id rs d.driver_id with _ | r
      · simp
      · by_cases he : (cr.eligible && r.fits_sla) = true
        · simp [he]
        · simp [he]

/-- Clearing the rank is the identity on freshly created candidates. -/
theorem clearRank_of_mem_candidates (today : Int) (drivers : List Driver)
    (cs : List ComplianceResult) (rs : List RoutingResult) (c : RankedDriver)
    (hc : c ∈ RankingEngine.rankCandidates today drivers cs rs) :
    RankingEngine.clearRank c = c := by
  obtain ⟨d, cr, r, rfl⟩ := rankCandidates_mem today drivers cs rs c hc
  rfl

/-- C4: the ranking returns exactly the drivers that pass both the
eligibility and the SLA gate (first two parts: the output is a permutation of
the selected candidate list, whose ids are exactly the gated driver ids in
input order), sorted with non-increasing scores, with 1-based consecutive
ranks assigned after the sort, and stably: within every score class the
output preserves the candidate input order. -/
theorem claim_C4 (today : Int) (drivers : List Driver)
    (cs : List ComplianceResult) (rs : List RoutingResult) :
    (((RankingEngine.rank today drivers cs rs).map RankingEngine.clearRank).Perm
        (RankingEngine.rankCandidates today drivers cs rs))
    ∧ ((RankingEngine.rankCandidates today drivers cs rs).map RankedDriver.driver_id
        = (drivers.filter (RankingEngine.passesGates cs rs)).map Driver.driver_id)
    ∧ (RankingEngine.rank today drivers cs rs).Pairwise (fun a b => b.score ≤ a.score)
    ∧ ((RankingEngine.rank today drivers cs rs).map RankedDriver.rank
        = List.range' 1 (RankingEngine.rank today drivers cs rs).length)
    ∧ ∀ s : Rat,
        ((RankingEngine.rank today drivers cs rs).map RankingEngine.clearRank).filter
            (fun c => decide (c.score = s))
          = (RankingEngine.rankCandidates today drivers cs rs).filter
              (fun c => decide (c.score = s)) := by
  have h1 : RankingEngine.rank today drivers cs rs
      = RankingEngine.assignRanksFrom 1
          (RankingEngine.sortDesc (RankingEngine.rankCandidates today drivers cs rs)) := rfl
  refine ⟨?_, rankCandidates_ids today cs rs drivers, ?_, ?_, ?_⟩
  · rw [h1, assignRanksFrom_map_clearRank]
    have h2 := (sortDesc_perm (RankingEngine.rankCandidates today drivers cs rs)).map
      RankingEngine.clearRank
    rw [rankCandidates_clearRank] at h2
    exact h2
  · rw [h1]
    exact assignRanksFrom_pairwise 1 _ (sortDesc_pairwise _)
  · rw [h1, assignRanksFrom_map_rank, assignRanksFrom_length]
  · intro s
    have hcongr : List.filter ((fun c => decide (c.score = s)) ∘ RankingEngine.clearRank)
        (RankingEngine.sortDesc (RankingEngine.rankCandidates today drivers cs rs))
        = List.filter (fun c => decide (c.score = s))
          (RankingEngine.sortDesc (RankingEngine.rankCandidates today drivers cs rs)) :=
      List.filter_congr (fun a _ => rfl)
    rw [h1, assignRanksFrom_map_clearRank, List.filter_map, hcongr, sortDesc_filter]
    have hmap : (List.filter (fun c => decide (c.score = s))
          (RankingEngine.rankCandidates today drivers cs rs)).map RankingEngine.clearRank
        = (List.filter (fun c => decide (c.score = s))
          (RankingEngine.rankCandidates today drivers cs rs)).map id :=
      List.map_congr_left (fun c hc =>
        clearRank_of_mem_candidates today drivers cs rs c (List.mem_filter.mp hc).1)
    rw [hmap, List.map_id]

-- ── Rounding before sorting (C9) ─────────────────────────────────────────────

/-- Rounding to two decimals is idempotent. -/
theorem round2_idem (x : Rat) :
    RankingEngine.round2 (RankingEngine.round2 x) = RankingEngine.round2 x := by
  unfold RankingEngine.round2
  rw [div_mul_cancel₀ _ (by norm_num : (100:ℚ) ≠ 0), round_intCast]

/-- C9 (amended): RankingEngine._score returns the two-decimal rounding of
the exact weighted score, so the score stored on every candidate — the value
the sort compares — is the already-rounded one (it is a fixed point of
rounding), not the pre-rounded value. -/
theorem claim_C9 (today : Int) (drivers : List Driver)
    (cs : List ComplianceResult) (rs : List RoutingResult) :
    (∀ (d : Driver) (r : RoutingResult),
        RankingEngine.score today d r
          = RankingEngine.round2 (RankingEngine.scoreExact today d r))
    ∧ (∀ c ∈ RankingEngine.rankCandidates today drivers cs rs,
        RankingEngine.round2 c.score = c.score) := by
  refine ⟨fun d r => rfl, ?_⟩
  intro c hc
  obtain ⟨d, cr, r, rfl⟩ := rankCandidates_mem today drivers cs rs c hc
  exact round2_idem _

-- Concrete fixtures for the C9 counterexample and witness.

/-- Counterexample driver A (all score factors zero except ETA). -/
def cxDriverA : Driver :=
  { driver_id := "A", name := "Avery", phone := "+15550006", vehicle_type := "car"
    license_expiry := 0, km_budget_remaining_today := 0
    shift_start := 0, shift_end := 0 }

/-- Counterexample driver B, identical to A except for its id. -/
def cxDriverB : Driver :=
  { driver_id := "B", name := "Blake", phone := "+15550007", vehicle_type := "car"
    license_expiry := 0, km_budget_remaining_today := 0
    shift_start := 0, shift_end := 0 }

/-- Eligible compliance fixture for A. -/
def cxComplianceA : ComplianceResult :=
  { driver_id := "A", eligible := true, failure_reasons := []
    license_days_remaining := 0, vehicle_match := true
    km_budget_ok := true, shift_window_ok := true }

/-- Eligible compliance fixture for B. -/
def cxComplianceB : ComplianceResult :=
  { driver_id := "B", eligible := true, failure_reasons := []
    license_days_remaining := 0, vehicle_match := true
    km_budget_ok := true, shift_window_ok := true }

/-- Feasible routing fixture for A: ETA 1 minute, exact score 595/12. -/
def cxRoutingA : RoutingResult :=
  { driver_id := "A", eta_to_pickup_minutes := 1, eta_total_trip_minutes := 2
    total_distance_km := 1, fits_sla := true }

/-- Feasible routing fixture for B: ETA 999/1000 minutes, exact score
slightly above that of A but rounding to the same two decimals. -/
def cxRoutingB : RoutingResult :=
  { driver_id := "B", eta_to_pickup_minutes := 999/1000, eta_total_trip_minutes := 2
    total_distance_km := 1, fits_sla := true }

unseal Rat.add Rat.sub Rat.mul Rat.inv in
/-- Counterexample for C9 as stated: driver B has the strictly higher exact
weighted score, both scores round to the same two decimals, and the ranking
places A (the lower exact score, earlier in the input) first — so the sort
compares the rounded values, not the pre-rounded ones. -/
theorem claim_C9_counterexample :
    RankingEngine.scoreExact 0 cxDriverA cxRoutingA
        < RankingEngine.scoreExact 0 cxDriverB cxRoutingB
    ∧ RankingEngine.score 0 cxDriverA cxRoutingA
        = RankingEngine.score 0 cxDriverB cxRoutingB
    ∧ (RankingEngine.rank 0 [cxDriverA, cxDriverB] [cxComplianceA, cxComplianceB]
          [cxRoutingA, cxRoutingB]).map RankedDriver.driver_id = ["A", "B"] :=
  ⟨by decide, by decide, by decide⟩

unseal Rat.add Rat.sub Rat.mul Rat.inv in
/-- Witness for C9 at a concrete input: the candidate built for driver A
carries a score that is a fixed point of two-decimal rounding. -/
theorem claim_C9_witness :
    RankingEngine.round2
        (RankingEngine.mkCandidate 0 cxDriverA cxComplianceA cxRoutingA).score
      = (RankingEngine.mkCandidate 0 cxDriverA cxComplianceA cxRoutingA).score :=
  (claim_C9 0 [cxDriverA] [cxComplianceA] [cxRoutingA]).2
    (RankingEngine.mkCandidate 0 cxDriverA cxComplianceA cxRoutingA) (by decide)
